import Mathlib

/-!
Verification of the asynchronous event fan-out and webhook-delivery engine
of the dotmac_ecm repository, as a shallow embedding in Lean 4.

The embedding follows the Python source:
  app/tasks/notifications.py  (subscription matching, notification dispatch)
  app/tasks/webhooks.py       (endpoint matching, delivery creation, worker)
  app/tasks/events.py         (per-channel fan-out with failure isolation)
  app/services/event.py       (fire-and-forget event publishing)

Python UUIDs are modelled as strings (subscriptions/people) or naturals
(endpoint and delivery ids); timestamps as naturals; dicts as association
lists.  String-slicing helpers of Python are modelled at character level.
The Celery task driver and the outbound HTTP client are external
collaborators; they are modelled from their documented behaviour, with the
HTTP outcome of each attempt supplied as an oracle function.
-/

namespace DotmacEcm

/-! ## Event-type matching (app/tasks/notifications.py, app/tasks/webhooks.py) -/

/-- Models Python `event_type.split(".")[0]` at character level: the
characters of the string before the first dot (the whole string when it
has no dot). -/
def firstSegmentAux : List Char → List Char
  | [] => []
  | c :: cs => if c = '.' then [] else c :: firstSegmentAux cs

/-- First dot-segment of an event type, as computed at both call sites
(`event_prefix = event_type.split(".")[0]`). -/
def firstSegment (s : String) : String :=
  (firstSegmentAux s.data).asString

/-- Embeds `_matches_event` from app/tasks/notifications.py lines 85-91:
return True iff some subscribed type equals the event type or the prefix. -/
def matchesEvent (subscribedTypes : List String) (eventType evPrefix : String) : Bool :=
  subscribedTypes.any (fun st => st == eventType || st == evPrefix)

/-- Embeds `_endpoint_matches` from app/tasks/webhooks.py lines 84-92:
an empty subscribed list matches everything; otherwise the same test as
`_matches_event`. -/
def endpointMatches (subscribedTypes : List String) (eventType evPrefix : String) : Bool :=
  if subscribedTypes.isEmpty then true
  else subscribedTypes.any (fun st => st == eventType || st == evPrefix)

/-! ## Webhook data model (app/models/ecm.py lines 936-995) -/

/-- Delivery status enum `WebhookDeliveryStatus`. -/
inductive DeliveryStatus where
  | pending
  | success
  | failed
deriving DecidableEq, Repr

/-- Event data dict built by `_find_and_queue` (app/tasks/webhooks.py lines
51-58) and snapshotted into each delivery's payload. -/
structure EventData where
  event_type : String
  entity_type : String
  entity_id : String
  actor_id : Option String
  document_id : Option String
  payload : List (String × String)
deriving DecidableEq, Repr

/-- Row of the `webhook_deliveries` table (model `WebhookDelivery`).
UUID columns are modelled as naturals, timestamps as naturals. -/
structure Delivery where
  id : Nat
  endpoint_id : Nat
  event_type : String
  payload : EventData
  status : DeliveryStatus
  response_status_code : Option Int
  response_body : Option String
  attempts : Nat
  last_attempt_at : Option Nat
  is_active : Bool
deriving DecidableEq, Repr

/-- Row of the `webhook_endpoints` table (model `WebhookEndpoint`), the
fields read by `_find_and_queue`. -/
structure Endpoint where
  id : Nat
  url : String
  secret : Option String
  event_types : List String
  is_active : Bool
deriving DecidableEq, Repr

/-- Arguments of the `deliver_single_webhook.delay(...)` call made by
`_find_and_queue` (app/tasks/webhooks.py lines 73-78). -/
structure QueuedTask where
  delivery_id : Nat
  url : String
  secret : Option String
  payload : EventData
deriving DecidableEq, Repr

/-! ## Webhook fan-out (app/tasks/webhooks.py lines 35-92) -/

/-- Embeds `_find_and_queue` (app/tasks/webhooks.py lines 35-81): load
active endpoints, keep those matching the event, and for each insert a
pending delivery (column defaults: attempts 0, no response fields) whose
payload is a frozen snapshot of the event data, then enqueue a
`deliver_single_webhook` task carrying (delivery_id, url, secret,
payload).  Database-generated delivery UUIDs are modelled by the position
of the matching endpoint. -/
def findAndQueue (endpoints : List Endpoint) (ev : EventData) :
    List Delivery × List QueuedTask :=
  let matched := (endpoints.filter (fun ep => ep.is_active)).filter
    (fun ep => endpointMatches ep.event_types ev.event_type (firstSegment ev.event_type))
  let rows := matched.enum.map (fun pr =>
    { id := pr.1, endpoint_id := pr.2.id, event_type := ev.event_type,
      payload := ev, status := DeliveryStatus.pending,
      response_status_code := none, response_body := none, attempts := 0,
      last_attempt_at := none, is_active := true })
  let tasks := matched.enum.map (fun pr =>
    { delivery_id := pr.1, url := pr.2.url, secret := pr.2.secret, payload := ev })
  (rows, tasks)

/-! ## Delivery worker (app/tasks/webhooks.py lines 95-154) -/

/-- Models Python string slicing `s[:n]` (used as `[:4000]` truncation). -/
def pyTake (n : Nat) (s : String) : String :=
  (s.data.take n).asString

/-- Outcome of the `httpx` POST inside `deliver_single_webhook`: either a
response (status code and text) or a raised `httpx.HTTPError`/`OSError`. -/
inductive HttpOutcome where
  | response (code : Int) (text : String)
  | error (msg : String)
deriving DecidableEq, Repr

/-- Success classification `200 <= resp.status_code < 300`
(app/tasks/webhooks.py line 137). -/
def isSuccessStatus (code : Int) : Bool :=
  200 ≤ code && code < 300

/-- True when the HTTP outcome leads `deliver_single_webhook` to mark the
delivery failed: any raised error, or any status outside [200, 300). -/
def isFailureOutcome : HttpOutcome → Bool
  | HttpOutcome.response code _ => !(isSuccessStatus code)
  | HttpOutcome.error _ => true

/-- Embeds the body of `deliver_single_webhook` operating on a found
delivery record (app/tasks/webhooks.py lines 129-144): increment attempts
and set last_attempt_at first, then record the outcome of the POST.  On a
raised error the response status code is left unchanged and the error text
is stored truncated to 4000 characters; on a response the code and the
truncated text are stored and the status is classified. -/
def deliverStep (d : Delivery) (outcome : HttpOutcome) (now : Nat) : Delivery :=
  let d1 := { d with attempts := d.attempts + 1, last_attempt_at := some now }
  match outcome with
  | HttpOutcome.response code text =>
      let d2 := { d1 with response_status_code := some code,
                          response_body := some (pyTake 4000 text) }
      if isSuccessStatus code then { d2 with status := DeliveryStatus.success }
      else { d2 with status := DeliveryStatus.failed }
  | HttpOutcome.error msg =>
      { d1 with status := DeliveryStatus.failed,
                response_body := some (pyTake 4000 msg) }

/-- Result of one `deliver_single_webhook` task invocation against the
delivery table: the table afterwards, whether an HTTP POST was issued, and
whether `self.retry(...)` scheduled a further attempt. -/
structure WorkerOutcome where
  db : List Delivery
  httpPosted : Bool
  retryScheduled : Bool
deriving DecidableEq, Repr

/-- Embeds one invocation of `deliver_single_webhook` (app/tasks/webhooks.py
lines 102-154) against the delivery table.  When `db.get` finds no record
the task logs and returns: no POST, no mutation, no retry.  Otherwise it
applies `deliverStep` and, if the delivery is failed, calls
`self.retry(...)`, which per Celery's documented semantics schedules a
re-execution iff `retries + 1 <= max_retries` and otherwise raises
`MaxRetriesExceededError`, which the task only logs. -/
def deliverSingleWebhook (db : List Delivery) (deliveryId : Nat)
    (outcome : HttpOutcome) (now : Nat) (retries maxRetries : Nat) : WorkerOutcome :=
  match db.find? (fun d => d.id == deliveryId) with
  | none => { db := db, httpPosted := false, retryScheduled := false }
  | some d =>
      let d2 := deliverStep d outcome now
      { db := db.map (fun x => if x.id == deliveryId then d2 else x),
        httpPosted := true,
        retryScheduled := d2.status == DeliveryStatus.failed
          && decide (retries + 1 ≤ maxRetries) }

/-- Models the Celery retry driver around `deliver_single_webhook`
(decorator `max_retries=5`; `self.retry(countdown=10 * 2 ** retries)` at
lines 148-152).  Per Celery's documented semantics an execution runs with
retry counter `retries`; `self.retry()` schedules a re-execution with
counter `retries + 1` while `retries + 1 <= max_retries`, and otherwise
raises `MaxRetriesExceededError`, which the task catches and logs,
terminating the sequence.  `remaining` counts the retries still allowed
(`max_retries - retries`); `outcomes n` and `times n` give the HTTP
outcome and wall-clock time of the execution whose retry counter is `n`. -/
def celeryLoop (outcomes : Nat → HttpOutcome) (times : Nat → Nat) :
    Nat → Nat → Delivery → Delivery
  | 0, retries, d => deliverStep d (outcomes retries) (times retries)
  | remaining + 1, retries, d =>
      let d2 := deliverStep d (outcomes retries) (times retries)
      if d2.status = DeliveryStatus.failed then
        celeryLoop outcomes times remaining (retries + 1) d2
      else d2

/-- Full delivery sequence for one delivery record: the initial execution
(retry counter 0) followed by up to `maxRetries` Celery retries. -/
def runDelivery (maxRetries : Nat) (outcomes : Nat → HttpOutcome)
    (times : Nat → Nat) (d : Delivery) : Delivery :=
  celeryLoop outcomes times maxRetries 0 d

/-- N successive worker invocations on the same delivery record, each
applying `deliverStep` with that invocation's HTTP outcome and time. -/
def runAttempts (steps : List (HttpOutcome × Nat)) (d : Delivery) : Delivery :=
  steps.foldl (fun acc s => deliverStep acc s.1 s.2) d

/-- Example freshly created delivery record, with the column defaults
`_find_and_queue` relies on (status pending, attempts 0). -/
def pendingExample : Delivery :=
  { id := 1, endpoint_id := 7, event_type := "document.created",
    payload := { event_type := "document.created", entity_type := "document",
                 entity_id := "e1", actor_id := some "u1",
                 document_id := some "d1", payload := [] },
    status := DeliveryStatus.pending, response_status_code := none,
    response_body := none, attempts := 0, last_attempt_at := none,
    is_active := true }

/-! ## Request signing (app/tasks/webhooks.py lines 116-120)

The payload is serialized once into `body`; if a secret is configured the
HMAC-SHA256 hex digest of the secret over that same `body` is attached as
the X-Webhook-Signature header, and the POST sends exactly `body`.  The
HMAC primitive itself lives in Python's hashlib, so it is a parameter
`hm : String → String → String` of the embedding (secret, body, digest). -/

/-- An outbound webhook POST: url, body bytes, headers. -/
structure HttpRequest where
  url : String
  body : String
  headers : List (String × String)
deriving DecidableEq, Repr

/-- Headers built by `deliver_single_webhook` lines 117-120.  Python's
`if secret:` is truthiness: None and the empty string configure no
signature. -/
def requestHeaders (hm : String → String → String) (secret : Option String)
    (body : String) : List (String × String) :=
  match secret with
  | none => [("Content-Type", "application/json")]
  | some s =>
      if s = "" then [("Content-Type", "application/json")]
      else [("Content-Type", "application/json"), ("X-Webhook-Signature", hm s body)]

/-- The POST issued at line 134: `client.post(url, content=body,
headers=headers)` with the body that was signed. -/
def buildRequest (hm : String → String → String) (url : String)
    (secret : Option String) (body : String) : HttpRequest :=
  { url := url, body := body, headers := requestHeaders hm secret body }

/-- First header with the given name, if any. -/
def headerValue (req : HttpRequest) (name : String) : Option String :=
  (req.headers.find? (fun h => h.1 == name)).map (fun h => h.2)

/-- Receiver-side verification: recompute the MAC over the received body
and compare with the transmitted signature. -/
def verifySignature (hm : String → String → String) (secret body sig : String) : Bool :=
  hm secret body == sig

/-- Stand-in keyed MAC used to instantiate signing statements on concrete
inputs; injective in the body for every key. -/
def idHmac : String → String → String := fun _ body => body

/-! ## Event dispatcher (app/tasks/events.py) and publisher (app/services/event.py)

The Celery broker is modelled as a queue of enqueued channel tasks; an
enqueue attempt either appends the task or fails, as dictated by the
`failing` oracle.  Computations that may raise are values of
`Except String _`; a Python `try/except Exception: logger.exception(...)`
converts an error into a log line and an `ok` result. -/

/-- The three fan-out channels invoked by `process_event`. -/
inductive Channel where
  | notifications
  | webhooks
  | search
deriving DecidableEq, Repr

/-- Order in which `process_event` invokes the channels (lines 32-34). -/
def allChannels : List Channel := [Channel.notifications, Channel.webhooks, Channel.search]

/-- Log line written by the except-branch of each fan-out helper. -/
def fanoutLogMsg : Channel → String
  | Channel.notifications => "Failed to fan-out notifications"
  | Channel.webhooks => "Failed to fan-out webhooks"
  | Channel.search => "Failed to fan-out search index update"

/-- One `task.delay(...)` call against the broker: appends the task to the
queue, or raises when the broker fails for that channel. -/
def delayCall (failing : Channel → Bool) (c : Channel) (q : List Channel) :
    Except String (List Channel) :=
  if failing c then Except.error "enqueue failure" else Except.ok (q ++ [c])

/-- Embeds `_fanout_notifications` (app/tasks/events.py lines 37-43): the
delay call is wrapped in try/except, so a raise becomes a log line and the
helper itself never raises. -/
def fanoutNotifications (failing : Channel → Bool) (q : List Channel) :
    Except String (List Channel × List String) :=
  match delayCall failing Channel.notifications q with
  | Except.ok q2 => Except.ok (q2, [])
  | Except.error e => Except.ok (q, [fanoutLogMsg Channel.notifications ++ ": " ++ e])

/-- Embeds `_fanout_webhooks` (app/tasks/events.py lines 46-52). -/
def fanoutWebhooks (failing : Channel → Bool) (q : List Channel) :
    Except String (List Channel × List String) :=
  match delayCall failing Channel.webhooks q with
  | Except.ok q2 => Except.ok (q2, [])
  | Except.error e => Except.ok (q, [fanoutLogMsg Channel.webhooks ++ ": " ++ e])

/-- Embeds `_fanout_search` (app/tasks/events.py lines 55-64). -/
def fanoutSearch (failing : Channel → Bool) (q : List Channel) :
    Except String (List Channel × List String) :=
  match delayCall failing Channel.search q with
  | Except.ok q2 => Except.ok (q2, [])
  | Except.error e => Except.ok (q, [fanoutLogMsg Channel.search ++ ": " ++ e])

/-- Embeds `process_event` (app/tasks/events.py lines 8-34): invoke the
three fan-out helpers in order; an error escaping any helper would
short-circuit the remaining ones through the Except bind. -/
def processEvent (failing : Channel → Bool) (q : List Channel) :
    Except String (List Channel × List String) := do
  let r1 ← fanoutNotifications failing q
  let r2 ← fanoutWebhooks failing r1.1
  let r3 ← fanoutSearch failing r2.1
  return (r3.1, r1.2 ++ r2.2 ++ r3.2)

/-- Embeds `publish_event` (app/services/event.py lines 43-71): a single
`process_event.delay(...)` enqueue attempt, whose outcome is the argument;
the try/except turns any raise into a log line, so the function returns
normally either way.  The Bool records whether the fan-out task was
enqueued. -/
def publishEvent (enq : Except String Unit) : Except String (Bool × List String) :=
  match enq with
  | Except.ok _ => Except.ok (true, ["Published event"])
  | Except.error e => Except.ok (false, ["Failed to publish event: " ++ e])

/-- End-to-end publishing pipeline: the three channels run only when the
`process_event` task was enqueued; a swallowed enqueue failure leaves the
broker queue untouched, so the event reaches no channel and nothing
retries it. -/
def publishPipeline (enq : Except String Unit) (failing : Channel → Bool)
    (q : List Channel) : Except String (List Channel × List String) :=
  match publishEvent enq with
  | Except.ok (true, logs) =>
      match processEvent failing q with
      | Except.ok r => Except.ok (r.1, logs ++ r.2)
      | Except.error e => Except.error e
  | Except.ok (false, logs) => Except.ok (q, logs)
  | Except.error e => Except.error e

/-! ## Notification fan-out (app/tasks/notifications.py lines 40-91) -/

/-- Row of the `document_subscriptions` table, the fields `_dispatch`
reads.  Ids are modelled as strings (UUID text). -/
structure Subscription where
  document_id : String
  person_id : String
  event_types : List String
  is_active : Bool
deriving DecidableEq, Repr

/-- Row of the `notifications` table as created by `_dispatch`
(app/tasks/notifications.py lines 69-76). -/
structure NotificationRow where
  person_id : String
  title : String
  body : String
  event_type : String
  entity_type : String
  entity_id : String
deriving DecidableEq, Repr

/-- Models Python `str.title()` for ASCII text: uppercase a letter that
follows a non-letter, lowercase the other letters. -/
def pyTitleAux : Bool → List Char → List Char
  | _, [] => []
  | prevAlpha, c :: cs =>
      let c2 := if c.isAlpha then (if prevAlpha then c.toLower else c.toUpper) else c
      c2 :: pyTitleAux c.isAlpha cs

/-- Title derivation `event_type.replace(".", " ").title()` of line 71,
with the single-character replace done charwise. -/
def deriveTitle (eventType : String) : String :=
  (pyTitleAux false ((eventType.data.map (fun c => if c = '.' then ' ' else c)))).asString

/-- The actor-exclusion test of line 64: `if actor_id and str(sub.person_id)
== str(actor_id): continue`.  Python truthiness: a None or empty actor id
never causes a skip. -/
def actorSkip (actorId : Option String) (personId : String) : Bool :=
  match actorId with
  | none => false
  | some a => !(a == "") && (personId == a)

/-- Loop body of `_dispatch` for one subscription (lines 63-77): skip the
acting actor, skip non-matching subscriptions, otherwise build the
notification row. -/
def notifyOne (eventType entityType entityId : String) (actorId : Option String)
    (evPrefix : String) (sub : Subscription) : Option NotificationRow :=
  if actorSkip actorId sub.person_id then none
  else if matchesEvent sub.event_types eventType evPrefix then
    some { person_id := sub.person_id, title := deriveTitle eventType,
           body := "Event " ++ eventType ++ " on " ++ entityType ++ " " ++ entityId,
           event_type := eventType, entity_type := entityType,
           entity_id := entityId }
  else none

/-- Embeds `_dispatch` (app/tasks/notifications.py lines 40-82): query the
active subscriptions of the event's document, then create one notification
row per subscription that passes the actor and event-type filters. -/
def dispatchNotifications (subsTable : List Subscription)
    (eventType entityType entityId : String) (actorId : Option String)
    (documentId : String) : List NotificationRow :=
  let subs := subsTable.filter (fun s => s.document_id == documentId && s.is_active)
  subs.filterMap (notifyOne eventType entityType entityId actorId (firstSegment eventType))

/-- Example subscription used to instantiate the notification theorems. -/
def subExample : Subscription :=
  { document_id := "d1", person_id := "p1", event_types := ["document"],
    is_active := true }

/-- Example event data used to instantiate webhook fan-out theorems. -/
def evExample : EventData :=
  { event_type := "document.created", entity_type := "document",
    entity_id := "e1", actor_id := some "u1", document_id := some "d1",
    payload := [] }

/-- Example wildcard endpoint: an empty event_types list. -/
def epWild : Endpoint :=
  { id := 3, url := "https://example.com/hook", secret := none,
    event_types := [], is_active := true }

/-- The notification row `_dispatch` creates for `subExample` on the event
"document.created" of document d1. -/
def rowExample : NotificationRow :=
  { person_id := "p1", title := "Document Created",
    body := "Event document.created on document e1",
    event_type := "document.created", entity_type := "document",
    entity_id := "e1" }

/-! ## Matching lemmas and claim C1 -/

theorem matchesEvent_iff (L : List String) (e p : String) :
    matchesEvent L e p = true ↔ (e ∈ L ∨ p ∈ L) := by
  simp only [matchesEvent, List.any_eq_true, Bool.or_eq_true, beq_iff_eq]
  constructor
  · rintro ⟨st, hst, h | h⟩
    · exact Or.inl (h ▸ hst)
    · exact Or.inr (h ▸ hst)
  · rintro (h | h)
    · exact ⟨e, h, Or.inl rfl⟩
    · exact ⟨p, h, Or.inr rfl⟩

theorem endpointMatches_iff (L : List String) (e p : String) :
    endpointMatches L e p = true ↔ (L = [] ∨ e ∈ L ∨ p ∈ L) := by
  by_cases hL : L = []
  · simp [endpointMatches, hL]
  · have hE : L.isEmpty = false := by simpa [List.isEmpty_iff] using hL
    simp only [endpointMatches, hE, Bool.false_eq_true, if_false]
    rw [show (L.any fun st => st == e || st == p) = matchesEvent L e p from rfl,
      matchesEvent_iff]
    tauto

/-- C1 counterexample: the claim asserts that a listed type "document" does
not match "document.version.created" unless that full string is listed,
but `_matches_event` compares against the text before the FIRST dot, so
the subscribed type "document" does match "document.version.created" even
though that full string is not in the list. -/
theorem C1_counterexample :
    matchesEvent ["document"] "document.version.created"
        (firstSegment "document.version.created") = true
    ∧ "document.version.created" ∉ (["document"] : List String) := by
  exact ⟨by decide, by decide⟩

/-- C1 amended: matching is exact-or-first-segment.  `_matches_event`
returns true iff the event type or its first dot-segment appears verbatim
in the subscribed list; `_endpoint_matches` is the same test except that it
also returns true when the subscribed list is empty.  Consequently a
listed "document" matches every event type whose first segment is
"document", including "document.version.created". -/
theorem C1_matching_amended (L : List String) (E : String) :
    (matchesEvent L E (firstSegment E) = true ↔ (E ∈ L ∨ firstSegment E ∈ L))
    ∧ (endpointMatches L E (firstSegment E) = true ↔
        (L = [] ∨ E ∈ L ∨ firstSegment E ∈ L))
    ∧ matchesEvent ["document"] "document.version.created"
        (firstSegment "document.version.created") = true :=
  ⟨matchesEvent_iff L E (firstSegment E),
    endpointMatches_iff L E (firstSegment E), by decide⟩

/-! ## Worker step lemmas -/

theorem deliverStep_attempts (d : Delivery) (o : HttpOutcome) (t : Nat) :
    (deliverStep d o t).attempts = d.attempts + 1 := by
  cases o with
  | response code text => by_cases h : isSuccessStatus code <;> simp [deliverStep, h]
  | error msg => simp [deliverStep]

theorem deliverStep_last_attempt (d : Delivery) (o : HttpOutcome) (t : Nat) :
    (deliverStep d o t).last_attempt_at = some t := by
  cases o with
  | response code text => by_cases h : isSuccessStatus code <;> simp [deliverStep, h]
  | error msg => simp [deliverStep]

theorem deliverStep_payload (d : Delivery) (o : HttpOutcome) (t : Nat) :
    (deliverStep d o t).payload = d.payload := by
  cases o with
  | response code text => by_cases h : isSuccessStatus code <;> simp [deliverStep, h]
  | error msg => simp [deliverStep]

theorem deliverStep_event_type (d : Delivery) (o : HttpOutcome) (t : Nat) :
    (deliverStep d o t).event_type = d.event_type := by
  cases o with
  | response code text => by_cases h : isSuccessStatus code <;> simp [deliverStep, h]
  | error msg => simp [deliverStep]

theorem deliverStep_endpoint_id (d : Delivery) (o : HttpOutcome) (t : Nat) :
    (deliverStep d o t).endpoint_id = d.endpoint_id := by
  cases o with
  | response code text => by_cases h : isSuccessStatus code <;> simp [deliverStep, h]
  | error msg => simp [deliverStep]

theorem deliverStep_failed (d : Delivery) (o : HttpOutcome) (t : Nat)
    (h : isFailureOutcome o = true) :
    (deliverStep d o t).status = DeliveryStatus.failed := by
  cases o with
  | response code text =>
      simp only [isFailureOutcome, Bool.not_eq_true'] at h
      simp [deliverStep, h]
  | error msg => simp [deliverStep]

/-! ## Retry sequence lemmas and claim C2 -/

theorem celeryLoop_alwaysFailed (outcomes : Nat → HttpOutcome) (times : Nat → Nat)
    (hfail : ∀ n, isFailureOutcome (outcomes n) = true) :
    ∀ remaining retries d,
      (celeryLoop outcomes times remaining retries d).status = DeliveryStatus.failed
      ∧ (celeryLoop outcomes times remaining retries d).attempts
          = d.attempts + (remaining + 1) := by
  intro remaining
  induction remaining with
  | zero =>
      intro retries d
      exact ⟨deliverStep_failed _ _ _ (hfail retries),
        by simp [celeryLoop, deliverStep_attempts]⟩
  | succ r ih =>
      intro retries d
      have hst := deliverStep_failed d (outcomes retries) (times retries) (hfail retries)
      have hun : celeryLoop outcomes times (r + 1) retries d
          = celeryLoop outcomes times r (retries + 1)
              (deliverStep d (outcomes retries) (times retries)) := by
        simp [celeryLoop, hst]
      rw [hun]
      refine ⟨(ih (retries + 1) _).1, ?_⟩
      rw [(ih (retries + 1) _).2, deliverStep_attempts]
      omega

/-- C2 counterexample: on a freshly created delivery whose every HTTP
attempt raises a connection error, the Celery driver (initial execution
plus `max_retries = 5` retries) leaves the record failed with
`attempts = 6`, not 5 as the claim states. -/
theorem C2_counterexample :
    (runDelivery 5 (fun _ => HttpOutcome.error "connection refused")
        (fun n => n) pendingExample).status = DeliveryStatus.failed
    ∧ (runDelivery 5 (fun _ => HttpOutcome.error "connection refused")
        (fun n => n) pendingExample).attempts = 6
    ∧ ¬ (runDelivery 5 (fun _ => HttpOutcome.error "connection refused")
        (fun n => n) pendingExample).attempts = 5 := by
  exact ⟨by decide, by decide, by decide⟩

/-- C2 amended: a delivery failing on each of its attempts ends permanently
with status failed and `attempts` equal to the initial value plus 6 (the
initial execution plus the 5 Celery retries allowed by `max_retries=5`);
once the budget is exhausted the driver runs exactly one final execution
and schedules nothing further, so no further state transition of the
delivery occurs. -/
theorem C2_retry_exhaustion_amended (outcomes : Nat → HttpOutcome)
    (times : Nat → Nat) (d : Delivery)
    (hfail : ∀ n, isFailureOutcome (outcomes n) = true) :
    (runDelivery 5 outcomes times d).status = DeliveryStatus.failed
    ∧ (runDelivery 5 outcomes times d).attempts = d.attempts + 6
    ∧ (∀ r d0, celeryLoop outcomes times 0 r d0
        = deliverStep d0 (outcomes r) (times r)) := by
  have h := celeryLoop_alwaysFailed outcomes times hfail 5 0 d
  exact ⟨h.1, h.2, fun r d0 => by simp [celeryLoop]⟩

/-- Witness for C2 amended at a concrete always-failing outcome oracle. -/
theorem C2_retry_exhaustion_witness :
    (runDelivery 5 (fun _ => HttpOutcome.error "boom") (fun n => n)
        pendingExample).status = DeliveryStatus.failed
    ∧ (runDelivery 5 (fun _ => HttpOutcome.error "boom") (fun n => n)
        pendingExample).attempts = pendingExample.attempts + 6
    ∧ celeryLoop (fun _ => HttpOutcome.error "boom") (fun n => n) 0 5 pendingExample
        = deliverStep pendingExample (HttpOutcome.error "boom") 5 :=
  ⟨(C2_retry_exhaustion_amended (fun _ => HttpOutcome.error "boom") (fun n => n)
      pendingExample (fun _ => rfl)).1,
    (C2_retry_exhaustion_amended (fun _ => HttpOutcome.error "boom") (fun n => n)
      pendingExample (fun _ => rfl)).2.1,
    (C2_retry_exhaustion_amended (fun _ => HttpOutcome.error "boom") (fun n => n)
      pendingExample (fun _ => rfl)).2.2 5 pendingExample⟩

/-! ## Notification fan-out lemmas and claim C3 -/

theorem countP_filterMap_eq {α β : Type} (f : α → Option β) (p : β → Bool)
    (q : α → Bool) (hpq : ∀ a b, f a = some b → p b = q a) :
    ∀ l : List α, (l.filterMap f).countP p = ((l.filter q).filterMap f).length := by
  intro l
  induction l with
  | nil => rfl
  | cons a t ih =>
      cases hfa : f a with
      | none =>
          cases hq : q a <;>
            simp [List.filterMap_cons, List.filter_cons, hfa, hq, ih]
      | some b =>
          have hpb : p b = q a := hpq a b hfa
          cases hq : q a <;>
            simp [List.filterMap_cons, List.filter_cons, List.countP_cons,
              hfa, hq, ih, hpb]

theorem actorSkip_iff (actor : Option String) (p : String) (hp : p ≠ "") :
    actorSkip actor p = true ↔ actor = some p := by
  cases actor with
  | none => simp [actorSkip]
  | some a =>
      simp only [actorSkip, Bool.and_eq_true, Bool.not_eq_true', beq_eq_false_iff_ne,
        ne_eq, beq_iff_eq, Option.some.injEq]
      constructor
      · rintro ⟨_, h⟩
        exact h.symm
      · rintro rfl
        exact ⟨hp, rfl⟩

theorem notifyOne_fields (et ent eid : String) (actor : Option String)
    (pfx : String) (s : Subscription) (n : NotificationRow)
    (h : notifyOne et ent eid actor pfx s = some n) :
    n.person_id = s.person_id ∧ n.event_type = et := by
  unfold notifyOne at h
  split at h
  · exact absurd h (by simp)
  · split at h
    · simp only [Option.some.injEq] at h
      subst h
      exact ⟨rfl, rfl⟩
    · exact absurd h (by simp)

/-- C3: for an active subscription S of the event's document (occurring
once in the table, per the unique (document, person) constraint, and with
a non-empty person UUID), dispatch creates exactly one notification row
carrying S's person id iff S does not belong to the acting actor and S's
subscribed types contain the event type or its first segment — and zero
rows otherwise; moreover every created row stores the event's type. -/
theorem C3_notification_per_subscription (subsTable : List Subscription)
    (S : Subscription) (et ent eid : String) (actor : Option String)
    (docId : String)
    (hS : (subsTable.filter (fun s => s.document_id == docId && s.is_active)).filter
            (fun s => s.person_id == S.person_id) = [S])
    (hp : S.person_id ≠ "") :
    ((dispatchNotifications subsTable et ent eid actor docId).countP
        (fun n => n.person_id == S.person_id)
      = if actor ≠ some S.person_id
            ∧ (et ∈ S.event_types ∨ firstSegment et ∈ S.event_types)
        then 1 else 0)
    ∧ (∀ n ∈ dispatchNotifications subsTable et ent eid actor docId,
        n.event_type = et) := by
  constructor
  · have hcnt := countP_filterMap_eq
      (notifyOne et ent eid actor (firstSegment et))
      (fun n => n.person_id == S.person_id)
      (fun s => s.person_id == S.person_id)
      (fun a b hab => by
        have h1 := (notifyOne_fields et ent eid actor (firstSegment et) a b hab).1
        simp only [h1])
      (subsTable.filter (fun s => s.document_id == docId && s.is_active))
    rw [show dispatchNotifications subsTable et ent eid actor docId
        = (subsTable.filter (fun s => s.document_id == docId && s.is_active)).filterMap
            (notifyOne et ent eid actor (firstSegment et)) from rfl,
      hcnt, hS]
    by_cases hskip : actorSkip actor S.person_id = true
    · have hactor : actor = some S.person_id := (actorSkip_iff actor S.person_id hp).mp hskip
      have hnone : notifyOne et ent eid actor (firstSegment et) S = none := by
        unfold notifyOne
        simp [hskip]
      simp only [List.filterMap_cons, hnone, List.filterMap_nil, List.length_nil]
      simp [hactor]
    · have hactor : ¬ actor = some S.person_id := by
        intro hc
        exact hskip ((actorSkip_iff actor S.person_id hp).mpr hc)
      by_cases hm : matchesEvent S.event_types et (firstSegment et) = true
      · have hsome : notifyOne et ent eid actor (firstSegment et) S
            = some { person_id := S.person_id, title := deriveTitle et,
                     body := "Event " ++ et ++ " on " ++ ent ++ " " ++ eid,
                     event_type := et, entity_type := ent, entity_id := eid } := by
          unfold notifyOne
          simp [hskip, hm]
        have hmem := (matchesEvent_iff S.event_types et (firstSegment et)).mp hm
        simp [List.filterMap_cons, hsome, hactor, hmem]
      · have hnone : notifyOne et ent eid actor (firstSegment et) S = none := by
          unfold notifyOne
          simp [hskip, hm]
        have hmem : ¬ (et ∈ S.event_types ∨ firstSegment et ∈ S.event_types) :=
          fun hc => hm ((matchesEvent_iff S.event_types et (firstSegment et)).mpr hc)
        simp [List.filterMap_cons, hnone, hmem]
  · intro n hn
    rw [show dispatchNotifications subsTable et ent eid actor docId
        = (subsTable.filter (fun s => s.document_id == docId && s.is_active)).filterMap
            (notifyOne et ent eid actor (firstSegment et)) from rfl] at hn
    obtain ⟨s, _, hs⟩ := List.mem_filterMap.mp hn
    exact (notifyOne_fields et ent eid actor (firstSegment et) s n hs).2

/-- Witness for C3 at the scenario of the spec: subscriber on "document"
for document d1, actor a different person, event "document.created". -/
theorem C3_notification_witness :
    ((dispatchNotifications [subExample] "document.created" "document" "e1"
        (some "u1") "d1").countP (fun n => n.person_id == subExample.person_id)
      = if (some "u1" : Option String) ≠ some subExample.person_id
            ∧ ("document.created" ∈ subExample.event_types
                ∨ firstSegment "document.created" ∈ subExample.event_types)
        then 1 else 0)
    ∧ (∀ n ∈ dispatchNotifications [subExample] "document.created" "document" "e1"
        (some "u1") "d1", n.event_type = "document.created") :=
  C3_notification_per_subscription [subExample] subExample "document.created"
    "document" "e1" (some "u1") "d1" (by decide) (by decide)

/-! ## Webhook fan-out counting lemmas and claim C4 -/

theorem countP_ext {α : Type} (p q : α → Bool) (h : ∀ a, p a = q a) (l : List α) :
    l.countP p = l.countP q := by
  induction l with
  | nil => rfl
  | cons a t ih => simp [List.countP_cons, ih, h a]

theorem countP_enumFrom {α : Type} (q : α → Bool) :
    ∀ (n : Nat) (l : List α),
      ((List.enumFrom n l).countP (fun pr => q pr.2)) = l.countP q := by
  intro n l
  induction l generalizing n with
  | nil => rfl
  | cons a t ih => simp [List.enumFrom_cons, List.countP_cons, ih]

theorem notifyOne_matches (et ent eid : String) (actor : Option String)
    (pfx : String) (s : Subscription) (n : NotificationRow)
    (h : notifyOne et ent eid actor pfx s = some n) :
    matchesEvent s.event_types et pfx = true := by
  unfold notifyOne at h
  split at h
  · exact absurd h (by simp)
  · split at h
    · assumption
    · exact absurd h (by simp)

theorem findAndQueue_countP (endpoints : List Endpoint) (ev : EventData)
    (epid : Nat) :
    (findAndQueue endpoints ev).1.countP
        (fun d => d.endpoint_id == epid && d.status == DeliveryStatus.pending)
      = endpoints.countP (fun e => ((e.id == epid)
          && endpointMatches e.event_types ev.event_type (firstSegment ev.event_type))
          && e.is_active) := by
  unfold findAndQueue
  simp only [List.countP_map, List.enum]
  rw [show ((fun d => d.endpoint_id == epid && d.status == DeliveryStatus.pending) ∘
      (fun pr : Nat × Endpoint =>
        ({ id := pr.1, endpoint_id := pr.2.id, event_type := ev.event_type,
           payload := ev, status := DeliveryStatus.pending,
           response_status_code := none, response_body := none, attempts := 0,
           last_attempt_at := none, is_active := true } : Delivery)))
      = (fun pr : Nat × Endpoint => pr.2.id == epid) from by
    funext pr
    simp]
  have henum := countP_enumFrom (fun e : Endpoint => e.id == epid) 0
    ((endpoints.filter (fun ep => ep.is_active)).filter
      (fun ep => endpointMatches ep.event_types ev.event_type
        (firstSegment ev.event_type)))
  rw [henum, List.countP_filter, List.countP_filter]

/-- C4: an endpoint with an empty event_types list matches every event and
gets exactly one pending delivery, whereas the notification matcher never
matches on an empty subscribed list, and every created notification row
originates from a subscription whose event_types list is non-empty and
matches the event: the empty-list wildcard holds only on the webhook side. -/
theorem C4_empty_list_wildcard :
    (∀ et, endpointMatches [] et (firstSegment et) = true)
    ∧ (∀ et p, matchesEvent [] et p = false)
    ∧ (∀ endpoints ev (ep : Endpoint),
        endpoints.filter (fun e => e.is_active && e.id == ep.id) = [ep] →
        ep.event_types = [] →
        (findAndQueue endpoints ev).1.countP
          (fun d => d.endpoint_id == ep.id && d.status == DeliveryStatus.pending) = 1)
    ∧ (∀ subsTable et ent eid actor docId n,
        n ∈ dispatchNotifications subsTable et ent eid actor docId →
        ∃ sub, sub ∈ subsTable ∧ sub.person_id = n.person_id
          ∧ matchesEvent sub.event_types et (firstSegment et) = true
          ∧ sub.event_types ≠ []) := by
  refine ⟨fun et => rfl, fun et p => rfl, ?_, ?_⟩
  · intro endpoints ev ep hfilter hempty
    rw [findAndQueue_countP, countP_ext _
      (fun e => endpointMatches e.event_types ev.event_type
          (firstSegment ev.event_type) && (e.is_active && e.id == ep.id))
      (fun e => by
        cases h1 : (e.id == ep.id) <;> cases h2 : e.is_active <;>
          cases h3 : endpointMatches e.event_types ev.event_type
            (firstSegment ev.event_type) <;> simp [h1, h2, h3]),
      ← List.countP_filter, hfilter]
    have hm : endpointMatches ep.event_types ev.event_type
        (firstSegment ev.event_type) = true := by
      rw [hempty]
      rfl
    simp [List.countP_cons, hm]
  · intro subsTable et ent eid actor docId n hn
    obtain ⟨s, hsmem, hs⟩ := List.mem_filterMap.mp hn
    refine ⟨s, List.mem_of_mem_filter hsmem,
      (notifyOne_fields et ent eid actor (firstSegment et) s n hs).1.symm,
      notifyOne_matches et ent eid actor (firstSegment et) s n hs, ?_⟩
    intro hnilEt
    have := notifyOne_matches et ent eid actor (firstSegment et) s n hs
    rw [hnilEt] at this
    exact absurd this (by simp [matchesEvent])

/-- Witness for C4 with a concrete wildcard endpoint and a concrete
notification produced by a non-empty subscription list. -/
theorem C4_empty_list_wildcard_witness :
    endpointMatches [] "document.created" (firstSegment "document.created") = true
    ∧ matchesEvent [] "document.created" (firstSegment "document.created") = false
    ∧ (findAndQueue [epWild] evExample).1.countP
        (fun d => d.endpoint_id == epWild.id
          && d.status == DeliveryStatus.pending) = 1
    ∧ (∃ sub, sub ∈ [subExample]
        ∧ sub.person_id = rowExample.person_id
        ∧ matchesEvent sub.event_types "document.created"
            (firstSegment "document.created") = true
        ∧ sub.event_types ≠ []) :=
  ⟨C4_empty_list_wildcard.1 "document.created",
    C4_empty_list_wildcard.2.1 "document.created" (firstSegment "document.created"),
    C4_empty_list_wildcard.2.2.1 [epWild] evExample epWild (by decide) rfl,
    C4_empty_list_wildcard.2.2.2 [subExample] "document.created" "document" "e1"
      none "d1" rowExample (by decide)⟩

/-! ## Claim C5: HMAC signing round-trip -/

/-- C5: when a secret is configured, the X-Webhook-Signature header is the
MAC of the secret over exactly the body the POST carries, so verifying the
transmitted signature against the received body succeeds iff the body is
unmodified (HMAC-SHA256 is idealized as a per-key injective function, the
collision-free assumption); with no secret — None or the empty string, per
Python truthiness — the header is absent. -/
theorem C5_signature_roundtrip (hm : String → String → String)
    (url secret body : String) (hinj : Function.Injective (hm secret))
    (hs : secret ≠ "") :
    ((buildRequest hm url (some secret) body).body = body)
    ∧ headerValue (buildRequest hm url (some secret) body) "X-Webhook-Signature"
        = some (hm secret body)
    ∧ (∀ body2, verifySignature hm secret body2 (hm secret body) = true
        ↔ body2 = body)
    ∧ (∀ u b, headerValue (buildRequest hm u none b) "X-Webhook-Signature" = none)
    ∧ (∀ u b, headerValue (buildRequest hm u (some "") b) "X-Webhook-Signature"
        = none) := by
  refine ⟨rfl, ?_, ?_, fun u b => rfl, fun u b => rfl⟩
  · simp [headerValue, buildRequest, requestHeaders, hs]
  · intro body2
    simp only [verifySignature, beq_iff_eq]
    exact ⟨fun h => hinj h, fun h => by rw [h]⟩

/-- Witness for C5 with a concrete injective stand-in MAC, a mutated body
failing verification, and absent headers without a secret. -/
theorem C5_signature_witness :
    ((buildRequest idHmac "https://example.com/hook" (some "shh") "hello").body
        = "hello")
    ∧ headerValue (buildRequest idHmac "https://example.com/hook" (some "shh")
        "hello") "X-Webhook-Signature" = some (idHmac "shh" "hello")
    ∧ verifySignature idHmac "shh" "hello" (idHmac "shh" "hello") = true
    ∧ verifySignature idHmac "shh" "hellO" (idHmac "shh" "hello") = false
    ∧ headerValue (buildRequest idHmac "https://example.com/hook" none "hello")
        "X-Webhook-Signature" = none
    ∧ headerValue (buildRequest idHmac "https://example.com/hook" (some "")
        "hello") "X-Webhook-Signature" = none := by
  have h := C5_signature_roundtrip idHmac "https://example.com/hook" "shh" "hello"
    (fun a b hab => hab) (by decide)
  refine ⟨h.1, h.2.1, (h.2.2.1 "hello").mpr rfl, ?_,
    h.2.2.2.1 "https://example.com/hook" "hello",
    h.2.2.2.2 "https://example.com/hook" "hello"⟩
  exact Bool.eq_false_iff.mpr
    (fun hv => absurd ((h.2.2.1 "hellO").mp hv) (by decide))

/-! ## Claim C6: attempt counting -/

theorem runAttempts_attempts (steps : List (HttpOutcome × Nat)) :
    ∀ d, (runAttempts steps d).attempts = d.attempts + steps.length := by
  induction steps with
  | nil => intro d; rfl
  | cons s t ih =>
      intro d
      show (runAttempts t (deliverStep d s.1 s.2)).attempts = _
      rw [ih, deliverStep_attempts]
      simp
      omega

/-- C6: every worker invocation on an existing delivery record increments
the attempts counter exactly once and stamps last_attempt_at, whatever the
HTTP outcome; hence after N invocations attempts has grown by exactly N,
last_attempt_at holds the most recent invocation's time, and attempts is
monotonically non-decreasing. -/
theorem C6_attempt_counting :
    (∀ d o t, (deliverStep d o t).attempts = d.attempts + 1
      ∧ (deliverStep d o t).last_attempt_at = some t)
    ∧ (∀ steps d, (runAttempts steps d).attempts = d.attempts + steps.length)
    ∧ (∀ steps d o t, (runAttempts (steps ++ [(o, t)]) d).last_attempt_at = some t)
    ∧ (∀ steps d, d.attempts ≤ (runAttempts steps d).attempts) := by
  refine ⟨fun d o t => ⟨deliverStep_attempts d o t, deliverStep_last_attempt d o t⟩,
    fun steps d => runAttempts_attempts steps d, ?_, ?_⟩
  · intro steps d o t
    unfold runAttempts
    rw [List.foldl_append]
    exact deliverStep_last_attempt _ o t
  · intro steps d
    rw [runAttempts_attempts]
    omega

/-! ## Claim C7: payload snapshot immutability -/

theorem celeryLoop_frame (outcomes : Nat → HttpOutcome) (times : Nat → Nat) :
    ∀ remaining retries d,
      (celeryLoop outcomes times remaining retries d).payload = d.payload
      ∧ (celeryLoop outcomes times remaining retries d).event_type = d.event_type
      ∧ (celeryLoop outcomes times remaining retries d).endpoint_id
          = d.endpoint_id := by
  intro remaining
  induction remaining with
  | zero =>
      intro retries d
      exact ⟨deliverStep_payload d _ _, deliverStep_event_type d _ _,
        deliverStep_endpoint_id d _ _⟩
  | succ r ih =>
      intro retries d
      by_cases h : (deliverStep d (outcomes retries) (times retries)).status
          = DeliveryStatus.failed
      · have hun : celeryLoop outcomes times (r + 1) retries d
            = celeryLoop outcomes times r (retries + 1)
                (deliverStep d (outcomes retries) (times retries)) := by
          simp [celeryLoop, h]
        rw [hun]
        have h2 := ih (retries + 1) (deliverStep d (outcomes retries) (times retries))
        exact ⟨h2.1.trans (deliverStep_payload d _ _),
          h2.2.1.trans (deliverStep_event_type d _ _),
          h2.2.2.trans (deliverStep_endpoint_id d _ _)⟩
      · have hun : celeryLoop outcomes times (r + 1) retries d
            = deliverStep d (outcomes retries) (times retries) := by
          simp [celeryLoop, h]
        rw [hun]
        exact ⟨deliverStep_payload d _ _, deliverStep_event_type d _ _,
          deliverStep_endpoint_id d _ _⟩

/-- C7: a delivery's payload snapshot, event_type and endpoint_id are
immutable once created: each worker invocation rewrites only the status,
attempts, last_attempt_at and response fields, the whole retry sequence
preserves payload, event_type and endpoint_id, and fan-out creates every
delivery with the frozen event snapshot as its payload. -/
theorem C7_payload_frozen :
    (∀ d o t, ∃ s a l rc rb, deliverStep d o t =
        { d with status := s, attempts := a, last_attempt_at := l,
                 response_status_code := rc, response_body := rb })
    ∧ (∀ outcomes times remaining retries d,
        (celeryLoop outcomes times remaining retries d).payload = d.payload
        ∧ (celeryLoop outcomes times remaining retries d).event_type = d.event_type
        ∧ (celeryLoop outcomes times remaining retries d).endpoint_id
            = d.endpoint_id)
    ∧ (∀ endpoints ev,
        ((findAndQueue endpoints ev).1.all
          (fun dl => decide (dl.payload = ev ∧ dl.event_type = ev.event_type)))
          = true) := by
  refine ⟨?_, fun outcomes times remaining retries d =>
    celeryLoop_frame outcomes times remaining retries d, ?_⟩
  · intro d o t
    cases o with
    | response code text =>
        by_cases h : isSuccessStatus code
        · exact ⟨DeliveryStatus.success, d.attempts + 1, some t, some code,
            some (pyTake 4000 text), by simp [deliverStep, h]⟩
        · exact ⟨DeliveryStatus.failed, d.attempts + 1, some t, some code,
            some (pyTake 4000 text), by simp [deliverStep, h]⟩
    | error msg =>
        exact ⟨DeliveryStatus.failed, d.attempts + 1, some t,
          d.response_status_code, some (pyTake 4000 msg), by simp [deliverStep]⟩
  · intro endpoints ev
    rw [List.all_eq_true]
    intro dl hdl
    obtain ⟨pr, _, hpr⟩ := List.mem_map.mp hdl
    subst hpr
    simp

/-! ## Claim C8: per-channel failure isolation -/

/-- C8: each of the three fan-out channels runs inside its own failure
boundary: whatever subset of channels fails to enqueue, process_event
returns normally, every non-failing channel's task is still enqueued in
source order, and each failing channel is logged. -/
theorem C8_channel_isolation (failing : Channel → Bool) (q : List Channel) :
    processEvent failing q =
      Except.ok (q ++ allChannels.filter (fun c => !failing c),
        (allChannels.filter failing).map
          (fun c => fanoutLogMsg c ++ ": enqueue failure")) := by
  cases h1 : failing Channel.notifications <;>
    cases h2 : failing Channel.webhooks <;>
      cases h3 : failing Channel.search <;>
        simp [processEvent, fanoutNotifications, fanoutWebhooks, fanoutSearch,
          delayCall, allChannels, fanoutLogMsg, h1, h2, h3, List.append_assoc,
          bind, Except.bind] <;> rfl

/-! ## Claim C9: publish never raises -/

/-- C9: publish_event returns normally for every enqueue outcome; when the
enqueue raises, the failure is logged and swallowed and the broker queue is
left untouched, so the event reaches none of the three channels and
nothing retries it. -/
theorem C9_publish_never_raises (enq : Except String Unit)
    (failing : Channel → Bool) (q : List Channel) :
    (∃ r, publishEvent enq = Except.ok r)
    ∧ (∀ e, enq = Except.error e →
        publishPipeline enq failing q
          = Except.ok (q, ["Failed to publish event: " ++ e])) := by
  constructor
  · cases enq with
    | ok u => exact ⟨(true, ["Published event"]), rfl⟩
    | error e => exact ⟨(false, ["Failed to publish event: " ++ e]), rfl⟩
  · intro e he
    subst he
    rfl

/-- Witness for C9 at a concrete failing enqueue. -/
theorem C9_publish_witness :
    (∃ r, publishEvent (Except.error "broker down") = Except.ok r)
    ∧ publishPipeline (Except.error "broker down") (fun _ => false) []
        = Except.ok ([], ["Failed to publish event: " ++ "broker down"]) :=
  ⟨(C9_publish_never_raises (Except.error "broker down") (fun _ => false) []).1,
    (C9_publish_never_raises (Except.error "broker down") (fun _ => false) []).2
      "broker down" rfl⟩

/-! ## Claim C10: missing delivery record -/

/-- C10: invoked with a delivery id absent from the table, the worker
returns without issuing the POST, without mutating any record (no attempts
increment, no status change) and without scheduling a retry. -/
theorem C10_missing_delivery (db : List Delivery) (deliveryId : Nat)
    (o : HttpOutcome) (now retries maxRetries : Nat)
    (h : db.find? (fun d => d.id == deliveryId) = none) :
    deliverSingleWebhook db deliveryId o now retries maxRetries
      = { db := db, httpPosted := false, retryScheduled := false } := by
  unfold deliverSingleWebhook
  rw [h]

/-- Witness for C10: a one-row table queried with an unknown id. -/
theorem C10_missing_delivery_witness :
    deliverSingleWebhook [pendingExample] 2 (HttpOutcome.error "boom") 0 0 5
      = { db := [pendingExample], httpPosted := false, retryScheduled := false } :=
  C10_missing_delivery [pendingExample] 2 (HttpOutcome.error "boom") 0 0 5
    (by decide)

end DotmacEcm
